import Mathlib

/-!
Shallow embedding of the PTD-vs-SDS comparison tool (`src/app.py`).

Datasets are modelled as lists of rows; a row is an association list from
column name to an optional string cell (`none` models `NaN`/`None`;
all scalars are modelled by their string form, since every comparison in
the source converts values with `str(...)` before comparing).
-/

namespace App

/-- A scalar cell: `none` models pandas `NaN` / Python `None`. -/
abbrev Cell := Option String

/-- A row: association list from column name to cell, in column order. -/
abbrev Row := List (String × Cell)

/-- A dataframe: a column list plus rows. -/
structure DataFrame where
  cols : List String
  rows : List Row
deriving DecidableEq

/-- Cell of a row at a column: `none` when the column is absent from the row. -/
def cellOf (r : Row) (c : String) : Option Cell := r.lookup c

/-- Value of a row at a column, conflating an absent column with `NaN`
(models pandas `Series.get`, which returns `None` for a missing label). -/
def colVal (r : Row) (c : String) : Cell := (r.lookup c).join

/-- Pandas scalar equality used in boolean-mask filters: `NaN` compares
unequal to everything, including itself. -/
def valEq : Cell → Cell → Bool
  | some a, some b => a == b
  | _, _ => false

/-- The filter `df[df[c] == v]` over the rows of a dataframe. -/
def filterByCol (rows : List Row) (c : String) (v : Cell) : List Row :=
  rows.filter (fun r => valEq (colVal r c) v)

/-- Python `str.strip()`: remove surrounding whitespace. -/
def pyStrip (s : String) : String :=
  String.mk (((s.data.dropWhile Char.isWhitespace).reverse.dropWhile Char.isWhitespace).reverse)

/-- Python `str.upper()`. -/
def pyUpper (s : String) : String := String.mk (s.data.map Char.toUpper)

/-- Python `str(x)` on a cell: `str` of a float `NaN` is the string `nan`
(models `.astype(str)` applied to a column containing `NaN`). -/
def cellStr : Cell → String
  | none => "nan"
  | some s => s

/-- Substring occurrence test on character lists. -/
def subOccurs (pat : List Char) : List Char → Bool
  | [] => pat.isEmpty
  | c :: rest => pat.isPrefixOf (c :: rest) || subOccurs pat rest

/-- Python `pat in s` substring test. -/
def strContains (s pat : String) : Bool := subOccurs pat.data s.data

/-- Replace every occurrence of `pat` in `s`, scanning left to right
(fuel-indexed structural recursion; fuel is the length of `s`). -/
def replaceAux (pat rep : List Char) : Nat → List Char → List Char
  | 0, s => s
  | _, [] => []
  | fuel + 1, c :: rest =>
    if pat.isPrefixOf (c :: rest) then
      rep ++ replaceAux pat rep fuel (List.drop (pat.length - 1) rest)
    else
      c :: replaceAux pat rep fuel rest

/-- Python `s.replace(pat, rep)` for a non-empty `pat`. -/
def pyReplace (s pat rep : String) : String :=
  String.mk (replaceAux pat.data rep.data s.data.length s.data)

/-! Dataset preprocessor (`process_ptd_dataframe`, src/app.py lines 35-73). -/

/-- Columns removed from PTD data (src/app.py lines 41-44). -/
def columns_to_remove : List String :=
  ["Modification comments + Highlight Cells where change made", "Library source"]

/-- The column-removal loop of `process_ptd_dataframe` (lines 47-49). -/
def dropRemovedColumns (df : DataFrame) : DataFrame :=
  { cols := df.cols.filter (fun c => !columns_to_remove.contains c)
    rows := df.rows.map (fun r => r.filter (fun cell => !columns_to_remove.contains cell.1)) }

/-- Accepted header spellings for the trial-inclusion column (lines 52-56). -/
def trial_column_names : List String :=
  ["Used in trial (Y, N, Mod)", "Used in trial (Y, N, Mod) ", "Used in trial"]

/-- The search loop of lines 58-62: first accepted spelling present in the
dataframe's columns. -/
def findTrialColumn (df : DataFrame) : Option String :=
  trial_column_names.find? (fun n => df.cols.contains n)

/-- The row filter of line 67: `df[trial_column].astype(str).str.strip().str.upper() == \x27Y\x27`. -/
def keepTrialRow (trial_column : String) (r : Row) : Bool :=
  pyUpper (pyStrip (cellStr (colVal r trial_column))) == "Y"

/-- `process_ptd_dataframe` (lines 35-73): drop the fixed columns, then filter
by the trial-inclusion column when one is found; returns the dataframe and the
(original, filtered) row counts. -/
def process_ptd_dataframe (df : DataFrame) : DataFrame × Nat × Nat :=
  let df1 := dropRemovedColumns df
  match findTrialColumn df1 with
  | some trial_column =>
    let original_count := df1.rows.length
    let df2 : DataFrame := { cols := df1.cols, rows := df1.rows.filter (keepTrialRow trial_column) }
    (df2, original_count, df2.rows.length)
  | none => (df1, df1.rows.length, df1.rows.length)

/-! Row matcher (`find_matching_rows`, src/app.py lines 75-112).
Python mutates `source_row` / `target_row` inside guarded blocks and falls
through when an inner emptiness test fails; the reassignments are threaded
here explicitly (`target_row1`, `source_row1`, ...). -/

/-- `find_matching_rows` (lines 75-112). -/
def find_matching_rows (source_df target_df : DataFrame) (item_name : String) :
    List Row × List Row × Option String :=
  let source_row := filterByCol source_df.rows "Item Name" (some item_name)
  let target_row := filterByCol target_df.rows "Item Name" (some item_name)
  if source_row ≠ [] ∨ target_row ≠ [] then
    (source_row, target_row, some "Item Name")
  else
    let target_row1 :=
      if source_row ≠ [] then
        filterByCol target_df.rows "Item Group Label" (colVal (source_row.headD []) "Item Group Label")
      else target_row
    if source_row ≠ [] ∧ target_row1 ≠ [] then
      (source_row, target_row1, some "Item Group Label")
    else
      let source_row1 :=
        if target_row1 ≠ [] then
          filterByCol source_df.rows "Item Group Label" (colVal (target_row1.headD []) "Item Group Label")
        else source_row
      if target_row1 ≠ [] ∧ source_row1 ≠ [] then
        (source_row1, target_row1, some "Item Group Label")
      else
        let target_row2 :=
          if source_row1 ≠ [] then
            filterByCol target_df.rows "Form Label" (colVal (source_row1.headD []) "Form Label")
          else target_row1
        if source_row1 ≠ [] ∧ target_row2 ≠ [] then
          (source_row1, target_row2, some "Form Label")
        else
          let source_row2 :=
            if target_row2 ≠ [] then
              filterByCol source_df.rows "Form Label" (colVal (target_row2.headD []) "Form Label")
            else source_row1
          if target_row2 ≠ [] ∧ source_row2 ≠ [] then
            (source_row2, target_row2, some "Form Label")
          else
            (source_row2, target_row2, none)

/-! Value comparator (`compare_values_vectorized`, src/app.py lines 114-134).
Statuses are the Python status strings. -/

/-- `compare_values_vectorized` (lines 114-134): returns (status, symbol, note). -/
def compare_values_vectorized (val1 val2 : Cell) : String × String × String :=
  match val1, val2 with
  | none, none => ("match", "✓", "")
  | none, some _ => ("missing_source", "⚠", "Missing in Source")
  | some _, none => ("missing_target", "⚠", "Missing in Target")
  | some v1, some v2 =>
    let str1 := pyStrip v1
    let str2 := pyStrip v2
    if str1 == str2 then ("match", "✓", "")
    else ("mismatch", "✗", "Values differ")

/-! Comparison builder (`create_comparison_dataframe`, src/app.py lines 136-184). -/

/-- Columns ignored in comparison (line 139). -/
def IGNORE_COLUMNS : List String := ["Definition Last Modified", "Relationship Last Modified"]

/-- One row of the comparison dataframe: the dict built at lines 175-182.
`sourceDisp` / `targetDisp` are the displayed value fields, `matchStatus` is
the `Match` column, `symbol` the `Status` column. -/
structure CompRecord where
  columnName : String
  sourceDisp : String
  targetDisp : String
  symbol : String
  matchStatus : String
  note : String
deriving DecidableEq

/-- Lines 148-151: `source_row.iloc[0]`, or a Series of `None` indexed by the
source columns when the source row set is empty. -/
def rowValuesOf (row : List Row) (source_columns : List String) : Row :=
  match row with
  | r :: _ => r
  | [] => source_columns.map (fun c => (c, (none : Cell)))

/-- The loop body of lines 158-182 for one column. -/
def mkCompRecord (source_values target_values : Row) (source_name target_name col : String) :
    CompRecord :=
  let source_value := colVal source_values col
  let target_value :=
    if (cellOf target_values col).isSome then colVal target_values col else none
  let res := compare_values_vectorized source_value target_value
  let note0 := res.2.2
  let note1 := if strContains note0 "Source" then pyReplace note0 "Source" source_name else note0
  let note2 := if strContains note1 "Target" then pyReplace note1 "Target" target_name else note1
  { columnName := col
    sourceDisp := match source_value with | some s => s | none => ""
    targetDisp := match target_value with | some s => s | none => "Column not in " ++ target_name
    symbol := res.2.1
    matchStatus := res.1
    note := note2 }

/-- Line 142: the source columns outside the ignore set. -/
def sourceColumnsOf (source_df : DataFrame) : List String :=
  source_df.cols.filter (fun c => !IGNORE_COLUMNS.contains c)

/-- `create_comparison_dataframe` (lines 136-184): one record per source
column outside the ignore set, in source column order. -/
def create_comparison_dataframe (source_row target_row : List Row) (source_df : DataFrame)
    (source_name target_name : String) : List CompRecord :=
  let source_columns := sourceColumnsOf source_df
  let source_values := rowValuesOf source_row source_columns
  let target_values := rowValuesOf target_row source_columns
  source_columns.map (mkCompRecord source_values target_values source_name target_name)

/-! Aggregator/reporter (`create_comprehensive_report`, src/app.py lines 197-338).
The Excel serialization is out of scope; the summary and issues tables it
writes are modelled as lists of rows. -/

/-- The per-item entry of `all_comparisons` (built at lines 703-708). -/
structure ItemData where
  comparison_df : List CompRecord
  match_type : Option String
  source_exists : Bool
  target_exists : Bool
deriving DecidableEq

/-- One row of the `Comparison Summary` sheet (lines 220-231); the match
percentage is kept as the exact rational the Python float formats. -/
structure SummaryRow where
  itemName : String
  matchType : Option String
  inSource : String
  inTarget : String
  totalColumns : Nat
  matchCount : Nat
  mismatches : Nat
  missingInTarget : Nat
  missingInSource : Nat
  matchPct : ℚ
deriving DecidableEq

/-- The summary loop body (lines 204-231) for one item; the dataset display
names only appear in the Python dict's column headers, not in any value. -/
def mkSummaryRow ( _source_name _target_name : String) (item_name : String) (data : ItemData) :
    SummaryRow :=
  let comp_df := data.comparison_df
  let total_cols := comp_df.length
  let match_count := comp_df.countP (fun r => r.matchStatus == "match")
  let mismatches := comp_df.countP (fun r => r.matchStatus == "mismatch")
  let missing_target := comp_df.countP (fun r => r.matchStatus == "missing_target")
  let missing_source := comp_df.countP (fun r => r.matchStatus == "missing_source")
  let match_percentage : ℚ := if total_cols > 0 then (match_count : ℚ) / (total_cols : ℚ) * 100 else 0
  { itemName := item_name
    matchType := data.match_type
    inSource := if data.source_exists then "✓" else "✗"
    inTarget := if data.target_exists then "✓" else "✗"
    totalColumns := total_cols
    matchCount := match_count
    mismatches := mismatches
    missingInTarget := missing_target
    missingInSource := missing_source
    matchPct := match_percentage }

/-- The `Comparison Summary` sheet (lines 202-234). `all_comparisons` is the
insertion-ordered dict, modelled as an association list. -/
def summaryData (all_comparisons : List (String × ItemData)) (source_name target_name : String) :
    List SummaryRow :=
  all_comparisons.map (fun p => mkSummaryRow source_name target_name p.1 p.2)

/-- The cached item-level descriptive fields (lines 240-250): the five values
of the first source row matching the item, each defaulting to the empty string
when the column is absent; all five empty when the item has no source row
(lines 267-272). -/
structure SourceInfo where
  form_name : Cell
  form_label : Cell
  form_short_label : Cell
  item_group_name : Cell
  item_group_label : Cell
deriving DecidableEq

/-- Lines 240-250 and 260-272: descriptive fields for one item. -/
def sourceInfoOf (source_df : DataFrame) (item_name : String) : SourceInfo :=
  match filterByCol source_df.rows "Item Name" (some item_name) with
  | r :: _ =>
    { form_name := if source_df.cols.contains "Form Name" then colVal r "Form Name" else some ""
      form_label := if source_df.cols.contains "Form Label" then colVal r "Form Label" else some ""
      form_short_label :=
        if source_df.cols.contains "Form Short Label" then colVal r "Form Short Label" else some ""
      item_group_name :=
        if source_df.cols.contains "Item Group Name" then colVal r "Item Group Name" else some ""
      item_group_label :=
        if source_df.cols.contains "Item Group Label" then colVal r "Item Group Label" else some "" }
  | [] =>
    { form_name := some "", form_label := some "", form_short_label := some ""
      item_group_name := some "", item_group_label := some "" }

/-- The `Issue Type` synthesis (lines 282-290). -/
def issueTypeOf (source_name target_name : String) (rec : CompRecord) : String :=
  if rec.matchStatus == "mismatch" then
    rec.columnName ++ ": Value mismatch (" ++ source_name ++ ": \x27" ++ rec.sourceDisp ++
      "\x27 vs " ++ target_name ++ ": \x27" ++ rec.targetDisp ++ "\x27)"
  else if rec.matchStatus == "missing_target" then
    rec.columnName ++ ": Missing in " ++ target_name ++ " (" ++ source_name ++ " has: \x27" ++
      rec.sourceDisp ++ "\x27)"
  else if rec.matchStatus == "missing_source" then
    rec.columnName ++ ": Missing in " ++ source_name ++ " (" ++ target_name ++ " has: \x27" ++
      rec.targetDisp ++ "\x27)"
  else rec.columnName ++ ": " ++ rec.note

/-- One row of the `Issues Only` sheet (lines 292-300). -/
structure IssueRow where
  itemName : String
  formName : Cell
  formLabel : Cell
  formShortLabel : Cell
  itemGroupName : Cell
  itemGroupLabel : Cell
  issueType : String
deriving DecidableEq

/-- Lines 292-300: one issue row for one problematic comparison record. -/
def mkIssueRow (info : SourceInfo) (item_name source_name target_name : String)
    (rec : CompRecord) : IssueRow :=
  { itemName := item_name
    formName := info.form_name
    formLabel := info.form_label
    formShortLabel := info.form_short_label
    itemGroupName := info.item_group_name
    itemGroupLabel := info.item_group_label
    issueType := issueTypeOf source_name target_name rec }

/-- The per-item match rate of lines 254-255. -/
def itemMatchRate (comp_df : List CompRecord) : ℚ :=
  let match_count := comp_df.countP (fun r => r.matchStatus == "match")
  if comp_df.length > 0 then (match_count : ℚ) / (comp_df.length : ℚ) * 100 else 0

/-- The `issues_data` accumulation loop (lines 237-300): items below a 100%
match rate contribute one row per non-`match` record, in order. -/
def issuesData (all_comparisons : List (String × ItemData)) (source_df : DataFrame)
    (source_name target_name : String) : List IssueRow :=
  all_comparisons.foldl
    (fun acc p =>
      if itemMatchRate p.2.comparison_df < 100 then
        let info := sourceInfoOf source_df p.1
        let issue_rows := p.2.comparison_df.filter (fun r => !(r.matchStatus == "match"))
        acc ++ issue_rows.map (mkIssueRow info p.1 source_name target_name)
      else acc)
    []

/-- The `Issues Only` sheet: either the issue rows, or the single
informational row of lines 330-335. -/
inductive IssuesSheet where
  | table : List IssueRow → IssuesSheet
  | message : String → IssuesSheet
deriving DecidableEq

/-- Lines 302-335: the sheet written as `Issues Only`. -/
def issuesSheetOf (all_comparisons : List (String × ItemData)) (source_df : DataFrame)
    (source_name target_name : String) : IssuesSheet :=
  let d := issuesData all_comparisons source_df source_name target_name
  if d.isEmpty then
    IssuesSheet.message "All items have 100% match rate. No discrepancies to report."
  else IssuesSheet.table d

/-- Status swap between the two sides: exchanges the two missing statuses. -/
def swapSides (s : String) : String :=
  if s == "missing_source" then "missing_target"
  else if s == "missing_target" then "missing_source"
  else s

/-- The contribution of one item to `issues_data`: its non-match records when
its match rate is below 100%, nothing otherwise. -/
def itemIssueRows (source_df : DataFrame) (source_name target_name : String)
    (p : String × ItemData) : List IssueRow :=
  if itemMatchRate p.2.comparison_df < 100 then
    (p.2.comparison_df.filter (fun r => !(r.matchStatus == "match"))).map
      (mkIssueRow (sourceInfoOf source_df p.1) p.1 source_name target_name)
  else []

/-! Concrete datasets used by counterexamples and witnesses. -/

/-- A source row for item WEIGHT in item group VITALS. -/
def rowWeight : Row :=
  [("Item Name", some "WEIGHT"), ("Item Group Label", some "VITALS"), ("Form Label", some "F1")]

/-- A target row for item HEIGHT sharing item group VITALS. -/
def rowHeight : Row :=
  [("Item Name", some "HEIGHT"), ("Item Group Label", some "VITALS"), ("Form Label", some "F1")]

/-- The key columns shared by the concrete datasets. -/
def keyCols : List String := ["Item Name", "Item Group Label", "Form Label"]

/-- Source dataset holding only WEIGHT/VITALS. -/
def srcVitals : DataFrame := ⟨keyCols, [rowWeight]⟩

/-- Target dataset holding only HEIGHT/VITALS (no WEIGHT item). -/
def tgtVitals : DataFrame := ⟨keyCols, [rowHeight]⟩

/-- A row for item AGE in item group DEMOG. -/
def rowAge : Row :=
  [("Item Name", some "AGE"), ("Item Group Label", some "DEMOG"), ("Form Label", some "F1")]

/-- Source dataset holding AGE. -/
def srcDemog : DataFrame := ⟨keyCols, [rowAge]⟩

/-- Target dataset also holding AGE. -/
def tgtDemog : DataFrame := ⟨keyCols, [rowAge]⟩

/-- A source row with a Units value of 5. -/
def rowUnits : Row := [("Item Name", some "AGE"), ("Units", some "5")]

/-- A target row lacking the Units column. -/
def rowNoUnits : Row := [("Item Name", some "AGE")]

/-- Source dataset whose column list carries Units. -/
def srcUnitsDf : DataFrame := ⟨["Item Name", "Units"], [rowUnits]⟩

/-- An item whose comparison dataframe is empty. -/
def itemEmpty : ItemData := ⟨[], none, false, false⟩

/-- A comparison record with a value mismatch on column Units. -/
def recMismatch : CompRecord := ⟨"Units", "kg", "KG", "✗", "mismatch", "Values differ"⟩

/-- An item holding exactly the mismatching record. -/
def itemMismatch : ItemData := ⟨[recMismatch], some "Item Name", true, true⟩

/-- A source dataset with one AGE row and no WEIGHT row. -/
def srcAgeOnly : DataFrame := ⟨["Item Name"], [[("Item Name", some "AGE")]]⟩

/-- A PTD dataset whose trial-inclusion column holds Y, N, Mod, y. -/
def ptdTrialDf : DataFrame :=
  ⟨["Item Name", "Used in trial (Y, N, Mod)"],
   [[("Item Name", some "A"), ("Used in trial (Y, N, Mod)", some "Y")],
    [("Item Name", some "B"), ("Used in trial (Y, N, Mod)", some "N")],
    [("Item Name", some "C"), ("Used in trial (Y, N, Mod)", some "Mod")],
    [("Item Name", some "D"), ("Used in trial (Y, N, Mod)", some "y")]]⟩

/-!  Theorems. -/

/-- C1: the spec requires the Item Group Label fallback when the source has
the item and the target does not, but the code returns at the first lookup
whenever either side matched by Item Name, so the fallback never fires: on a
source holding WEIGHT/VITALS and a target holding only HEIGHT/VITALS, the
result is the source row, an empty target and matchedBy Item Name, not the
Item Group Label match the spec describes. -/
theorem find_matching_rows_fallback_never_fires :
    find_matching_rows srcVitals tgtVitals "WEIGHT" = ([rowWeight], [], some "Item Name") := by
  decide

/-- C10: for every pair of datasets and every item key, `find_matching_rows`
either returns the two Item Name filters tagged Item Name with at least one
side non-empty, or returns two empty sides tagged none; the tag is never
Item Group Label or Form Label. -/
theorem find_matching_rows_invariant (source_df target_df : DataFrame) (item_name : String) :
    ((find_matching_rows source_df target_df item_name =
        (filterByCol source_df.rows "Item Name" (some item_name),
         filterByCol target_df.rows "Item Name" (some item_name), some "Item Name") ∧
      (filterByCol source_df.rows "Item Name" (some item_name) ≠ [] ∨
       filterByCol target_df.rows "Item Name" (some item_name) ≠ [])) ∨
     find_matching_rows source_df target_df item_name = ([], [], none)) ∧
    (find_matching_rows source_df target_df item_name).2.2 ≠ some "Item Group Label" ∧
    (find_matching_rows source_df target_df item_name).2.2 ≠ some "Form Label" := by
  have main :
      (find_matching_rows source_df target_df item_name =
        (filterByCol source_df.rows "Item Name" (some item_name),
         filterByCol target_df.rows "Item Name" (some item_name), some "Item Name") ∧
      (filterByCol source_df.rows "Item Name" (some item_name) ≠ [] ∨
       filterByCol target_df.rows "Item Name" (some item_name) ≠ [])) ∨
      find_matching_rows source_df target_df item_name = ([], [], none) := by
    by_cases h : filterByCol source_df.rows "Item Name" (some item_name) ≠ [] ∨
        filterByCol target_df.rows "Item Name" (some item_name) ≠ []
    · left
      exact ⟨by rw [find_matching_rows, if_pos h], h⟩
    · right
      push_neg at h
      obtain ⟨hs, ht⟩ := h
      rw [find_matching_rows]
      simp [hs, ht]
  refine ⟨main, ?_, ?_⟩ <;>
    rcases main with ⟨heq, _⟩ | heq <;> rw [heq] <;> simp

/-- C9: when the item key occurs as an Item Name value in both datasets,
`find_matching_rows` tags the result Item Name. -/
theorem find_matching_rows_item_name_precedence (source_df target_df : DataFrame) (key : String)
    (hs : ∃ r ∈ source_df.rows, colVal r "Item Name" = some key)
    ( _ht : ∃ r ∈ target_df.rows, colVal r "Item Name" = some key) :
    (find_matching_rows source_df target_df key).2.2 = some "Item Name" := by
  obtain ⟨r, hr, hv⟩ := hs
  have hmem : r ∈ filterByCol source_df.rows "Item Name" (some key) := by
    simp [filterByCol, List.mem_filter, hr, valEq, hv]
  have hne : filterByCol source_df.rows "Item Name" (some key) ≠ [] := by
    intro hnil
    rw [hnil] at hmem
    exact (List.not_mem_nil r) hmem
  rw [find_matching_rows, if_pos (Or.inl hne)]

/-- C9 witness: with AGE present in both concrete datasets, the match is
tagged Item Name. -/
theorem find_matching_rows_item_name_precedence_witness :
    (find_matching_rows srcDemog tgtDemog "AGE").2.2 = some "Item Name" :=
  find_matching_rows_item_name_precedence srcDemog tgtDemog "AGE"
    ⟨rowAge, by decide, by decide⟩ ⟨rowAge, by decide, by decide⟩

/-- C7: swapping the two arguments of `compare_values_vectorized` swaps the
two missing statuses and fixes match and mismatch. -/
theorem compare_values_vectorized_symm (v1 v2 : Cell) :
    (compare_values_vectorized v2 v1).1 = swapSides (compare_values_vectorized v1 v2).1 := by
  cases v1 <;> cases v2 <;> simp [compare_values_vectorized, swapSides]
  rename_i a b
  by_cases h : pyStrip a = pyStrip b
  · simp [h]
  · simp [h, Ne.symm h]

/-- C2: `compare_values_vectorized` is total and returns exactly one of the
four statuses: match when both cells are absent; missing_source or
missing_target, with a note naming the missing side, when exactly one is
absent; and for two present values, match exactly when the
whitespace-trimmed strings are equal and mismatch with note Values differ
otherwise; trimming does no case folding, so kg versus KG-with-space is a
mismatch. -/
theorem compare_values_vectorized_cases (v1 v2 : Cell) :
    ((compare_values_vectorized v1 v2).1 = "match" ∨
     (compare_values_vectorized v1 v2).1 = "mismatch" ∨
     (compare_values_vectorized v1 v2).1 = "missing_source" ∨
     (compare_values_vectorized v1 v2).1 = "missing_target") ∧
    (v1 = none → v2 = none → compare_values_vectorized v1 v2 = ("match", "✓", "")) ∧
    (v1 = none → v2 ≠ none →
      compare_values_vectorized v1 v2 = ("missing_source", "⚠", "Missing in Source")) ∧
    (v1 ≠ none → v2 = none →
      compare_values_vectorized v1 v2 = ("missing_target", "⚠", "Missing in Target")) ∧
    (∀ a b, v1 = some a → v2 = some b →
      ((compare_values_vectorized v1 v2).1 = "match" ↔ pyStrip a = pyStrip b) ∧
      (pyStrip a ≠ pyStrip b →
        compare_values_vectorized v1 v2 = ("mismatch", "✗", "Values differ"))) ∧
    (compare_values_vectorized (some "kg") (some "KG ")).1 = "mismatch" := by
  refine ⟨?_, ?_, ?_, ?_, ?_, by decide⟩
  · cases v1 <;> cases v2 <;> simp [compare_values_vectorized]
    rename_i a b
    by_cases h : pyStrip a = pyStrip b <;> simp [h]
  · intro h1 h2; subst h1; subst h2; rfl
  · intro h1 h2
    subst h1
    cases v2 with
    | none => exact absurd rfl h2
    | some b => rfl
  · intro h1 h2
    subst h2
    cases v1 with
    | none => exact absurd rfl h1
    | some a => rfl
  · intro a b h1 h2
    subst h1; subst h2
    by_cases h : pyStrip a = pyStrip b <;>
      simp [compare_values_vectorized, h]

/-- C2 witness: an absent source against a present target is classified
missing_source with the note naming the source side. -/
theorem compare_values_vectorized_cases_witness :
    compare_values_vectorized none (some "5") = ("missing_source", "⚠", "Missing in Source") :=
  (compare_values_vectorized_cases none (some "5")).2.2.1 rfl (by simp)

/-- C8: the comparison dataframe has exactly one record per source-dataset
column outside the two ignored columns, in source column order; target-only
columns are never compared. -/
theorem create_comparison_dataframe_columns (source_row target_row : List Row)
    (source_df : DataFrame) (source_name target_name : String) :
    (create_comparison_dataframe source_row target_row source_df source_name target_name).map
        (fun r => r.columnName) =
      source_df.cols.filter (fun c => !IGNORE_COLUMNS.contains c) := by
  unfold create_comparison_dataframe
  rw [List.map_map]
  have key : ∀ (cols : List String) (sv tv : Row),
      cols.map ((fun r => r.columnName) ∘ mkCompRecord sv tv source_name target_name) = cols := by
    intro cols sv tv
    induction cols with
    | nil => rfl
    | cons c cs ih => simpa [Function.comp, mkCompRecord] using ih
  exact key (sourceColumnsOf source_df) _ _

/-- C3 counterexample: with source value 5 in a Units column the target row
lacks, the record renders the target value as the sentinel text but its
status is the missing-value status missing_target, so the case is not
distinguished from missing_target as the claim states. -/
theorem column_not_in_target_is_missing_target :
    (create_comparison_dataframe [rowUnits] [rowNoUnits] srcUnitsDf "PTD" "SDS").map
        (fun r => (r.columnName, r.matchStatus, r.targetDisp)) =
      [("Item Name", "match", "AGE"), ("Units", "missing_target", "Column not in SDS")] := by
  decide

/-- C3 amended: for every source column absent from the target row values,
with the source value present, the produced record renders the target value
as the text Column-not-in-target while its status is classified
missing_target; the sentinel lives in the display text only, not in the
status. -/
theorem column_not_in_target_sentinel (source_row target_row : List Row) (source_df : DataFrame)
    (source_name target_name col : String)
    (hcol : col ∈ sourceColumnsOf source_df)
    (habs : cellOf (rowValuesOf target_row (sourceColumnsOf source_df)) col = none)
    (hsrc : (colVal (rowValuesOf source_row (sourceColumnsOf source_df)) col).isSome) :
    ∃ rec ∈ create_comparison_dataframe source_row target_row source_df source_name target_name,
      rec.columnName = col ∧ rec.targetDisp = "Column not in " ++ target_name ∧
      rec.matchStatus = "missing_target" := by
  obtain ⟨s, hs⟩ := Option.isSome_iff_exists.mp hsrc
  refine ⟨mkCompRecord (rowValuesOf source_row (sourceColumnsOf source_df))
    (rowValuesOf target_row (sourceColumnsOf source_df)) source_name target_name col,
    List.mem_map_of_mem _ hcol, rfl, ?_⟩
  simp [mkCompRecord, habs, hs, compare_values_vectorized]

/-- C3 witness: the concrete Units column absent from the target row yields
the sentinel text together with status missing_target. -/
theorem column_not_in_target_sentinel_witness :
    ∃ rec ∈ create_comparison_dataframe [rowUnits] [rowNoUnits] srcUnitsDf "PTD" "SDS",
      rec.columnName = "Units" ∧ rec.targetDisp = "Column not in " ++ "SDS" ∧
      rec.matchStatus = "missing_target" :=
  column_not_in_target_sentinel [rowUnits] [rowNoUnits] srcUnitsDf "PTD" "SDS" "Units"
    (by decide) (by decide) (by decide)

/-- C5: every row of the comparison summary carries a match percentage equal
to matches over total columns times 100, and 0 when the total is 0. -/
theorem summary_match_percentage (all_comparisons : List (String × ItemData))
    (source_name target_name : String) :
    ∀ srow ∈ summaryData all_comparisons source_name target_name,
      srow.matchPct =
        (if srow.totalColumns = 0 then 0
         else (srow.matchCount : ℚ) / (srow.totalColumns : ℚ) * 100) ∧
      (srow.totalColumns = 0 → srow.matchPct = 0) := by
  intro srow hmem
  obtain ⟨p, hp, rfl⟩ := List.mem_map.mp hmem
  have hfields :
      (mkSummaryRow source_name target_name p.1 p.2).totalColumns = p.2.comparison_df.length ∧
      (mkSummaryRow source_name target_name p.1 p.2).matchCount =
        p.2.comparison_df.countP (fun r => r.matchStatus == "match") ∧
      (mkSummaryRow source_name target_name p.1 p.2).matchPct =
        (if p.2.comparison_df.length > 0 then
          ((p.2.comparison_df.countP (fun r => r.matchStatus == "match") : ℚ) /
            (p.2.comparison_df.length : ℚ) * 100)
         else 0) := ⟨rfl, rfl, rfl⟩
  obtain ⟨ht, hm, hpct⟩ := hfields
  rw [ht, hm, hpct]
  by_cases h : p.2.comparison_df.length = 0
  · simp [h]
  · simp [h, Nat.pos_of_ne_zero h]

/-- C5 witness: an item with an empty comparison dataframe reports a 0 match
percentage rather than a division error. -/
theorem summary_match_percentage_witness :
    (mkSummaryRow "PTD" "SDS" "X" itemEmpty).matchPct = 0 :=
  (summary_match_percentage [("X", itemEmpty)] "PTD" "SDS"
      (mkSummaryRow "PTD" "SDS" "X" itemEmpty) (by simp [summaryData])).2 rfl

/-- C6: PTD preprocessing. When an accepted trial-column spelling is found
after the fixed column drop, the result keeps exactly the rows whose value
in that column, stringified, stripped and upper-cased, equals Y, and the
reported counts are the row counts before and after that filter; when none
is found the dataset passes through with equal counts. The filter keeps Y
and y and drops N and Mod, and the column search follows the ordered list of
accepted spellings. -/
theorem process_ptd_dataframe_spec (df : DataFrame) :
    (∀ c, findTrialColumn (dropRemovedColumns df) = some c →
      process_ptd_dataframe df =
        ({ cols := (dropRemovedColumns df).cols
           rows := (dropRemovedColumns df).rows.filter (keepTrialRow c) },
         (dropRemovedColumns df).rows.length,
         ((dropRemovedColumns df).rows.filter (keepTrialRow c)).length)) ∧
    (findTrialColumn (dropRemovedColumns df) = none →
      process_ptd_dataframe df =
        (dropRemovedColumns df, (dropRemovedColumns df).rows.length,
         (dropRemovedColumns df).rows.length)) ∧
    (∀ c r, keepTrialRow c r = (pyUpper (pyStrip (cellStr (colVal r c))) == "Y")) ∧
    (keepTrialRow "Used in trial" [("Used in trial", some "Y")] = true ∧
     keepTrialRow "Used in trial" [("Used in trial", some "y")] = true ∧
     keepTrialRow "Used in trial" [("Used in trial", some "N")] = false ∧
     keepTrialRow "Used in trial" [("Used in trial", some "Mod")] = false) ∧
    findTrialColumn df = trial_column_names.find? (fun n => df.cols.contains n) := by
  refine ⟨?_, ?_, fun c r => rfl, by decide, rfl⟩
  · intro c hc
    simp [process_ptd_dataframe, hc]
  · intro hc
    simp [process_ptd_dataframe, hc]

/-- C6 witness: on the concrete PTD dataset with trial values Y, N, Mod, y,
the reported counts are 4 before and 2 after the filter. -/
theorem process_ptd_dataframe_spec_witness :
    (process_ptd_dataframe ptdTrialDf).2.1 = 4 ∧ (process_ptd_dataframe ptdTrialDf).2.2 = 2 := by
  have h := (process_ptd_dataframe_spec ptdTrialDf).1 "Used in trial (Y, N, Mod)" (by decide)
  constructor
  · rw [h]; decide
  · rw [h]; decide

/-- Folding the issue accumulation from any accumulator appends the items'
contributions in order. -/
theorem issuesData_eq_flatMap (all_comparisons : List (String × ItemData)) (source_df : DataFrame)
    (source_name target_name : String) :
    issuesData all_comparisons source_df source_name target_name =
      all_comparisons.flatMap (itemIssueRows source_df source_name target_name) := by
  have step : ∀ (l : List (String × ItemData)) (acc : List IssueRow),
      l.foldl
        (fun acc p =>
          if itemMatchRate p.2.comparison_df < 100 then
            acc ++ (p.2.comparison_df.filter (fun r => !(r.matchStatus == "match"))).map
              (mkIssueRow (sourceInfoOf source_df p.1) p.1 source_name target_name)
          else acc)
        acc =
      acc ++ l.flatMap (itemIssueRows source_df source_name target_name) := by
    intro l
    induction l with
    | nil => intro acc; simp
    | cons p ps ih =>
      intro acc
      rw [List.foldl_cons, List.flatMap_cons, ih]
      by_cases h : itemMatchRate p.2.comparison_df < 100
      · simp [itemIssueRows, h]
      · simp [itemIssueRows, h]
  exact step all_comparisons []

/-- Mapping an if-then-else-empty body over a list is a flatMap over the
filtered list. -/
theorem flatMap_ite_filter {α β : Type} (l : List α) (c : α → Prop) [DecidablePred c]
    (g : α → List β) :
    l.flatMap (fun x => if c x then g x else []) = (l.filter (fun x => decide (c x))).flatMap g := by
  induction l with
  | nil => rfl
  | cons x xs ih =>
    by_cases h : c x
    · simp [h, ih]
    · simp [h, ih]

/-- C4: the issues table is exactly one row per non-match comparison record
of each item whose match rate is below 100% (fully matched items contribute
nothing), in order; the descriptive fields come from the item's first source
row and are all empty strings when the item has no source row; the Issue
Type wording shows both values for a mismatch, the source value for
missing_target and the target value for missing_source; and when no issue
rows exist the sheet is the single informational message row. -/
theorem issues_table_content (all_comparisons : List (String × ItemData)) (source_df : DataFrame)
    (source_name target_name : String) :
    (issuesData all_comparisons source_df source_name target_name =
      (all_comparisons.filter
          (fun p => decide (itemMatchRate p.2.comparison_df < 100))).flatMap
        (fun p => (p.2.comparison_df.filter (fun r => !(r.matchStatus == "match"))).map
          (mkIssueRow (sourceInfoOf source_df p.1) p.1 source_name target_name))) ∧
    (∀ name, filterByCol source_df.rows "Item Name" (some name) = [] →
      sourceInfoOf source_df name = ⟨some "", some "", some "", some "", some ""⟩) ∧
    (∀ info name rec, mkIssueRow info name source_name target_name rec =
      ⟨name, info.form_name, info.form_label, info.form_short_label, info.item_group_name,
       info.item_group_label, issueTypeOf source_name target_name rec⟩) ∧
    (∀ rec : CompRecord, rec.matchStatus = "mismatch" →
      issueTypeOf source_name target_name rec =
        rec.columnName ++ ": Value mismatch (" ++ source_name ++ ": \x27" ++ rec.sourceDisp ++
          "\x27 vs " ++ target_name ++ ": \x27" ++ rec.targetDisp ++ "\x27)") ∧
    (∀ rec : CompRecord, rec.matchStatus = "missing_target" →
      issueTypeOf source_name target_name rec =
        rec.columnName ++ ": Missing in " ++ target_name ++ " (" ++ source_name ++ " has: \x27" ++
          rec.sourceDisp ++ "\x27)") ∧
    (∀ rec : CompRecord, rec.matchStatus = "missing_source" →
      issueTypeOf source_name target_name rec =
        rec.columnName ++ ": Missing in " ++ source_name ++ " (" ++ target_name ++ " has: \x27" ++
          rec.targetDisp ++ "\x27)") ∧
    (issuesData all_comparisons source_df source_name target_name = [] →
      issuesSheetOf all_comparisons source_df source_name target_name =
        IssuesSheet.message "All items have 100% match rate. No discrepancies to report.") := by
  refine ⟨?_, ?_, fun info name rec => rfl, ?_, ?_, ?_, ?_⟩
  · rw [issuesData_eq_flatMap]
    rw [← flatMap_ite_filter all_comparisons
      (fun p => itemMatchRate p.2.comparison_df < 100)]
    rfl
  · intro name h
    simp [sourceInfoOf, h]
  · intro rec h
    simp [issueTypeOf, h]
  · intro rec h
    simp [issueTypeOf, h]
  · intro rec h
    simp [issueTypeOf, h]
  · intro h
    simp [issuesSheetOf, h]

/-- C4 witness: one below-100% item with a single mismatching record yields
one issue row, the mismatch wording shows both values, and an item absent
from the source dataset gets empty descriptive fields. -/
theorem issues_table_content_witness :
    (issuesData [("WEIGHT", itemMismatch)] srcAgeOnly "PTD" "SDS").length = 1 ∧
    issueTypeOf "PTD" "SDS" recMismatch =
      "Units: Value mismatch (PTD: \x27kg\x27 vs SDS: \x27KG\x27)" ∧
    sourceInfoOf srcAgeOnly "WEIGHT" = ⟨some "", some "", some "", some "", some ""⟩ := by
  have h := issues_table_content [("WEIGHT", itemMismatch)] srcAgeOnly "PTD" "SDS"
  refine ⟨?_, ?_, h.2.1 "WEIGHT" (by decide)⟩
  · rw [h.1]
    have hrate : itemMatchRate itemMismatch.comparison_df < 100 := by
      simp [itemMatchRate, itemMismatch, recMismatch]
    rw [List.filter_cons_of_pos (by simpa using hrate)]
    decide
  · rw [h.2.2.2.1 recMismatch (by decide)]; decide

end App
